import Mathlib

/-!
Verification development for `bible_image_generator.py`.

This file gives a shallow embedding, in Lean 4, of the pure decision logic of
the Bible image-generation pipeline: the prompt length enforcement
(`PromptLengthValidator`), the weighted art-style selector
(`WeightedStyleSelector` and the `IMAGE_ART` catalog), the source chain
(`QuoteFetcher`), the per-source retry loops, the prompt fallback
(`create_prompt`), the cross-backend image-generation fallback, and the
run outcome of `process_quote_and_image`.

Python strings are modelled as `List Char` (one entry per code point, as
`len()` counts them); network and API calls are modelled by passing their
outcomes in as explicit arguments.  `float` comparisons against the constants
`0.8 * 1500` and `0.9 * len(prompt)` are modelled over the integers (the
comparison `last_space > 1500 * 0.8` is exact: `1500 * 0.8 == 1200.0` in IEEE
double arithmetic, and the `0.9` comparison is evaluated here only away from
its rounding boundary).
-/

/-! ## PromptLengthValidator (source lines 1221-1341) -/

/-- Venice.ai hard character budget, `PromptLengthValidator.VENICE_PROMPT_LIMIT`. -/
def VENICE_PROMPT_LIMIT : Nat := 1500

/-- Python `str.replace(old, new)`: left-to-right, non-overlapping replacement
of every occurrence of `old` by `new`.  The source only ever calls `replace`
with a non-empty pattern; for an empty pattern this embedding is the identity. -/
def replaceChars (old new : List Char) : List Char → List Char
  | [] => []
  | c :: rest =>
    if h : old ≠ [] ∧ old <+: (c :: rest) then
      new ++ replaceChars old new ((c :: rest).drop old.length)
    else
      c :: replaceChars old new rest
termination_by s => s.length
decreasing_by
  · have h1 : 0 < old.length := List.length_pos.mpr h.1
    simp only [List.length_drop, List.length_cons]
    omega
  · simp only [List.length_cons]
    omega

/-- Helper for `lastSpace`: scan left to right remembering the index of the
most recent space. -/
def lastSpaceAux : List Char → Nat → Option Nat → Option Nat
  | [], _, acc => acc
  | c :: rest, i, acc => lastSpaceAux rest (i + 1) (if c = ' ' then some i else acc)

/-- Python `str.rfind(' ')`; `none` models the `-1` "not found" result. -/
def lastSpace (s : List Char) : Option Nat := lastSpaceAux s 0 none

/-- The whitespace characters stripped by Python `str.rstrip()` (restricted to
the ASCII ones; the source only ever strips ASCII text here). -/
def pythonWhitespace : List Char := [' ', '\t', '\n', '\r', '\x0b', '\x0c']

/-- Python `str.rstrip()`. -/
def rstrip (s : List Char) : List Char :=
  (s.reverse.dropWhile (fun c => c ∈ pythonWhitespace)).reverse

/-- The fixed list of low-information filler phrases removed first
(`redundant_phrases`, source lines 1262-1270). -/
def redundant_phrases : List (List Char) :=
  [("the image should").toList,
   ("the image must").toList,
   ("the image will").toList,
   ("make sure the image").toList,
   ("ensure the image").toList,
   ("the image needs to").toList,
   ("the image has to").toList]

/-- The fixed list of intensifier words removed second
(`words_to_remove`, source line 1279). -/
def words_to_remove : List String :=
  ["very", "really", "quite", "extremely", "absolutely"]

/-- The phrase-removal loop of `truncate_prompt` (source lines 1272-1275):
before each removal the length is rechecked and the loop stops as soon as the
text fits the budget. -/
def removePhrases : List (List Char) → List Char → List Char
  | [], t => t
  | p :: ps, t =>
    if t.length ≤ VENICE_PROMPT_LIMIT then t
    else removePhrases ps (replaceChars p [] t)

/-- The intensifier-removal loop of `truncate_prompt` (source lines 1278-1283):
each word is removed surrounded by spaces, replaced by a single space. -/
def removeWords : List String → List Char → List Char
  | [], t => t
  | w :: ws, t =>
    if t.length ≤ VENICE_PROMPT_LIMIT then t
    else removeWords ws (replaceChars (' ' :: (w.toList ++ [' '])) [' '] t)

/-- The hard-cut step of `truncate_prompt` (source lines 1286-1291): cut at the
budget, then back off to the last space provided that space is strictly past
80% of the budget (`last_space > VENICE_PROMPT_LIMIT * 0.8`, which is exact
integer arithmetic since `1500 * 0.8 == 1200.0` in IEEE doubles). -/
def hardCut (t : List Char) : List Char :=
  if VENICE_PROMPT_LIMIT < t.length then
    match lastSpace (t.take VENICE_PROMPT_LIMIT) with
    | some i =>
      if 4 * VENICE_PROMPT_LIMIT < 5 * i then (t.take VENICE_PROMPT_LIMIT).take i
      else t.take VENICE_PROMPT_LIMIT
    | none => t.take VENICE_PROMPT_LIMIT
  else t

/-- The ellipsis step of `truncate_prompt` (source lines 1294-1295): if the
result lost more than 10% of the original length
(`len(truncated) < len(prompt) * 0.9`, modelled as `10 * len t < 9 * len p`),
append `"..."` after stripping trailing whitespace. -/
def addEllipsisMark (original t : List Char) : List Char :=
  if 10 * t.length < 9 * original.length then rstrip t ++ ("...").toList else t

/-- `PromptLengthValidator.truncate_prompt` (source lines 1242-1298). -/
def truncate_prompt (prompt : List Char) : List Char :=
  if prompt.length ≤ VENICE_PROMPT_LIMIT then prompt
  else
    addEllipsisMark prompt
      (hardCut (removeWords words_to_remove (removePhrases redundant_phrases prompt)))

/-- `PromptLengthValidator.validate_prompt_length` (source lines 1227-1240):
returns `(is_valid, character_count)`. -/
def validate_prompt_length (prompt : List Char) : Bool × Nat :=
  (decide (prompt.length ≤ VENICE_PROMPT_LIMIT), prompt.length)

/-- `PromptLengthValidator.optimize_prompt` (source lines 1300-1319): returns
`(optimized_prompt, was_truncated)`. -/
def optimize_prompt (prompt : List Char) : List Char × Bool :=
  if (validate_prompt_length prompt).1 then (prompt, false)
  else (truncate_prompt prompt, true)

/-! ## WeightedStyleSelector and the IMAGE_ART catalog (source lines 495-612) -/

/-- One entry of the `IMAGE_ART` style dictionary.  The Python entry is a dict
with keys `description`, `characteristics`, `weight`, `shortcut`; the pipeline
later writes an extra `name` key into the very same dict
(`GroqPromptGenerator.get_random_art_style`, line 829), so the presence of
that key is modelled by the `name : Option String` field, `none` meaning the
key is absent. -/
structure ArtStyle where
  description : String
  characteristics : List String
  weight : Nat
  shortcut : String
  name : Option String := none
deriving DecidableEq, Repr

/-- A style catalog: the dict `styles`, in insertion order, as a key-value list. -/
abbrev StyleCatalog := List (String × ArtStyle)

/-- `WeightedStyleSelector.__init__`'s `total_weight` (source line 588). -/
def totalWeight (styles : StyleCatalog) : Nat :=
  (styles.map (fun p => p.2.weight)).sum

/-- The accumulation loop of `select_style` (source lines 600-607).  `r` is the
value drawn by `random.uniform(0, total_weight)`, a real number in
`[0, total_weight]`, modelled as a rational; the running sum `current` is a sum
of integer weights and stays a natural number. -/
def selectLoop (r : ℚ) : Nat → StyleCatalog → Option (String × ArtStyle)
  | _, [] => none
  | current, s :: rest =>
    if r ≤ ((current + s.2.weight : ℕ) : ℚ) then some s
    else selectLoop r (current + s.2.weight) rest

/-- `WeightedStyleSelector.select_style` (source lines 591-612): raises
`ValueError` on an empty catalog, walks the entries accumulating weights, and
falls back to the last catalog entry if the walk exhausts without a match. -/
def select_style (styles : StyleCatalog) (r : ℚ) : Except String (String × ArtStyle) :=
  match styles with
  | [] => Except.error "No styles available for selection"
  | s0 :: rest =>
    match selectLoop r 0 (s0 :: rest) with
    | some s => Except.ok s
    | none => Except.ok (rest.getLastD s0)

/-- The `IMAGE_ART` dictionary (source lines 495-576), with its weights. -/
def IMAGE_ART : StyleCatalog :=
  [("impressionism",
    { description := "Capturing fleeting moments with visible brushstrokes and emphasis on light effects",
      characteristics := ["loose brushwork", "natural light", "outdoor scenes", "vibrant colors", "captured moments"],
      weight := 9, shortcut := "imp" }),
   ("post_impressionism",
    { description := "Emotional and symbolic use of color and form beyond natural representation",
      characteristics := ["bold colors", "expressive brushstrokes", "symbolic elements", "emotional depth", "structured composition"],
      weight := 10, shortcut := "pim" }),
   ("fauvism",
    { description := "Bold, non-naturalistic colors and simplified forms",
      characteristics := ["intense colors", "simplified forms", "expressive brushwork", "emotional impact", "non-naturalistic palette"],
      weight := 5, shortcut := "fau" }),
   ("expressionism",
    { description := "Distorted forms and intense colors to express emotional experience",
      characteristics := ["distorted forms", "intense colors", "emotional expression", "subjective perspective", "dramatic contrast"],
      weight := 9, shortcut := "exp" }),
   ("cubism",
    { description := "Geometric fragmentation and multiple perspectives",
      characteristics := ["geometric forms", "multiple viewpoints", "fragmented space", "analytical approach", "overlapping planes"],
      weight := 8, shortcut := "cub" }),
   ("futurism",
    { description := "Dynamic movement and modern technology representation",
      characteristics := ["dynamic lines", "speed elements", "technological themes", "motion blur", "modern subjects"],
      weight := 4, shortcut := "fut" }),
   ("dada",
    { description := "Anti-art movement with absurd and irrational elements",
      characteristics := ["absurd elements", "found objects", "irrational composition", "challenging norms", "experimental techniques"],
      weight := 8, shortcut := "dad" }),
   ("surrealism",
    { description := "Dreamlike imagery and unconscious mind exploration",
      characteristics := ["dreamlike elements", "unusual juxtapositions", "symbolic imagery", "fantastical scenes", "psychological depth"],
      weight := 4, shortcut := "sur" }),
   ("abstract_expressionism",
    { description := "Spontaneous, emotional expression through abstract forms",
      characteristics := ["gestural brushstrokes", "emotional intensity", "abstract forms", "spontaneous creation", "large scale"],
      weight := 7, shortcut := "aex" }),
   ("minimalism",
    { description := "Reduced to essential elements and geometric forms",
      characteristics := ["simple forms", "clean lines", "limited palette", "reduced elements", "precise composition"],
      weight := 7, shortcut := "min" }),
   ("mixed_media",
    { description := "Combination of various materials and techniques",
      characteristics := ["diverse materials", "layered elements", "textural variety", "experimental combinations", "multimedia approach"],
      weight := 8, shortcut := "mix" }),
   ("street_art",
    { description := "Urban expression and public space intervention",
      characteristics := ["urban elements", "bold graphics", "public space", "social commentary", "graffiti techniques"],
      weight := 4, shortcut := "str" }),
   ("deconstructivist_art",
    { description := "Deconstructivist art is a style that deconstructs traditional forms and structures, often using geometric shapes and lines.",
      characteristics := ["geometric shapes", "lines", "deconstruction", "abstraction", "modernism"],
      weight := 8, shortcut := "dec" })]

/-- `GroqPromptGenerator.get_random_art_style` (source lines 823-831): select a
style, then execute `style['name'] = style_name`.  The selected dict is the one
aliased inside the catalog, so the assignment also updates the catalog entry;
the returned value is the selected style together with the catalog as it stands
after the assignment. -/
def get_random_art_style (styles : StyleCatalog) (r : ℚ) :
    Except String (ArtStyle × StyleCatalog) :=
  match select_style styles r with
  | Except.error e => Except.error e
  | Except.ok (styleName, style) =>
    let style' := { style with name := some styleName }
    Except.ok (style', styles.map (fun p => if p.1 = styleName then (p.1, style') else p))

/-- Forget the `name` key of every entry: two catalogs with the same
`eraseNames` image agree on every key and value except the written-in `name`. -/
def eraseNames (c : StyleCatalog) : StyleCatalog :=
  c.map (fun p => (p.1, { p.2 with name := none }))

/-- The `name` keys currently present in a catalog, in order. -/
def catalogNames (c : StyleCatalog) : List (Option String) :=
  c.map (fun p => p.2.name)

/-! ## QuoteFetcher (source lines 278-321) -/

/-- Python truthiness of an `Optional[str]`: `None` and the empty string are
falsy, everything else is truthy. -/
def truthyStr : Option String → Bool
  | none => false
  | some s => s ≠ ""

/-- The source names registered in `QuoteFetcher.__init__` (source lines
282-285). -/
def knownSources : List String := ["bible21", "dailyverses"]

/-- The configuration validation of `QuoteFetcher.__init__` (source lines
290-297): an unknown source identifier is replaced by the default `bible21`. -/
def validateSource (s : String) : String :=
  if s ∈ knownSources then s else "bible21"

/-- `QuoteFetcher.__init__` (source lines 281-297): the validated
`(current_source, fallback_source)` pair. -/
def quoteFetcherInit (current fallback : String) : String × String :=
  (validateSource current, validateSource fallback)

/-- `QuoteFetcher.fetch_quote` (source lines 299-321).  `env name` is the
result of `self.sources[name].fetch_quote()`; the second component records, in
order, which sources were invoked. -/
def fetch_quote (env : String → Option String) (current fallback : String) :
    Option String × List String :=
  let quote := env current
  if truthyStr quote then (quote, [current])
  else if fallback ≠ current then
    let quote2 := env fallback
    if truthyStr quote2 then (quote2, [current, fallback])
    else (none, [current, fallback])
  else (none, [current])

/-! ## Per-source retry loops (source lines 127-154 and 223-263) -/

/-- Outcome of one attempt of `Bible21QuoteSource.fetch_quote`: the HTTP
request raises a `RequestException`, or it succeeds and the
`span.daily-word__quote` element is absent, or present with the given
(stripped) text. -/
inductive B21Page
  | netError (msg : String)
  | noElement
  | element (text : String)
deriving DecidableEq, Repr

/-- Outcome of one attempt of `DailyVersesQuoteSource.fetch_quote`: a network
error; or HTTP success with the `div.b1` container absent; or the container
present but the `span.v1` verse span absent; or verse and reference both
present; or the verse present without a usable reference link. -/
inductive DVPage
  | netError (msg : String)
  | noDiv
  | divNoSpan
  | verseRef (verse ref : String)
  | verseOnly (verse : String)
deriving DecidableEq, Repr

/-- Observable trace of one call of a source's `fetch_quote`: its return value,
how many loop attempts were started (each starts with an HTTP request), and how
many times `time.sleep(Config.RETRY_DELAY)` ran. -/
structure FetchTrace where
  result : Option String
  attemptsUsed : Nat
  sleeps : Nat
deriving DecidableEq, Repr

/-- The retry loop of `Bible21QuoteSource.fetch_quote` (source lines 127-154),
unrolled from attempt number `attempt` with `pages n` the outcome of the
`n`-th attempt.  A found element returns its text; an absent element returns
`None` on that same attempt; a network error sleeps and retries unless it was
the last attempt. -/
def bible21FetchAux (pages : Nat → B21Page) (maxRetries attempt : Nat) : FetchTrace :=
  if attempt < maxRetries then
    match pages attempt with
    | B21Page.element t => ⟨some t, 1, 0⟩
    | B21Page.noElement => ⟨none, 1, 0⟩
    | B21Page.netError _ =>
      if attempt < maxRetries - 1 then
        let rest := bible21FetchAux pages maxRetries (attempt + 1)
        ⟨rest.result, rest.attemptsUsed + 1, rest.sleeps + 1⟩
      else ⟨none, 1, 0⟩
  else ⟨none, 0, 0⟩
termination_by maxRetries - attempt
decreasing_by omega

/-- `Bible21QuoteSource.fetch_quote` with `Config.MAX_RETRIES = maxRetries`. -/
def bible21_fetch_quote (pages : Nat → B21Page) (maxRetries : Nat) : FetchTrace :=
  bible21FetchAux pages maxRetries 0

/-- The retry loop of `DailyVersesQuoteSource.fetch_quote` (source lines
223-263).  When the `div.b1` container is present but the `span.v1` verse is
absent, no branch returns and no sleep runs: the `for` loop simply moves on to
the next attempt, and after the last attempt the function falls off the end
returning `None`. -/
def dvFetchAux (pages : Nat → DVPage) (maxRetries attempt : Nat) : FetchTrace :=
  if attempt < maxRetries then
    match pages attempt with
    | DVPage.verseRef v ref => ⟨some (v ++ " (" ++ ref ++ ")"), 1, 0⟩
    | DVPage.verseOnly v => ⟨some v, 1, 0⟩
    | DVPage.noDiv => ⟨none, 1, 0⟩
    | DVPage.divNoSpan =>
      let rest := dvFetchAux pages maxRetries (attempt + 1)
      ⟨rest.result, rest.attemptsUsed + 1, rest.sleeps⟩
    | DVPage.netError _ =>
      if attempt < maxRetries - 1 then
        let rest := dvFetchAux pages maxRetries (attempt + 1)
        ⟨rest.result, rest.attemptsUsed + 1, rest.sleeps + 1⟩
      else ⟨none, 1, 0⟩
  else ⟨none, 0, 0⟩
termination_by maxRetries - attempt
decreasing_by all_goals omega

/-- `DailyVersesQuoteSource.fetch_quote` with `Config.MAX_RETRIES = maxRetries`. -/
def dv_fetch_quote (pages : Nat → DVPage) (maxRetries : Nat) : FetchTrace :=
  dvFetchAux pages maxRetries 0

/-! ## Prompt creation fallback (source lines 1035-1051 and 1094-1109) -/

/-- The leading text of the local fallback instruction, up to the opening
quotation mark around the quote. -/
def basicPromptHead : String :=
  "Create a symbolic and meaningful image representing this Bible quote: \""

/-- The middle of the local fallback instruction, between the closing quotation
mark and the style name. -/
def basicPromptMid : String :=
  "\"\n            The image should:\n            1. Capture the essence and meaning of the quote\n            2. Use symbolic elements and metaphors\n            3. Have a spiritual and contemplative atmosphere\n            4. Be suitable for sharing on social media\n            5. Use "

/-- The tail of the local fallback instruction after the style name. -/
def basicPromptTail (characteristics : List String) : String :=
  " style with these characteristics: " ++ String.intercalate ", " characteristics

/-- The deterministic locally-constructed fallback instruction of
`ImageGenerator.create_prompt` (source lines 1043-1049); it interpolates the
quote and the style name and characteristics into a fixed f-string. -/
def basicPrompt (quote styleName : String) (characteristics : List String) : String :=
  basicPromptHead ++ quote ++ basicPromptMid ++ styleName ++ basicPromptTail characteristics

/-- `ImageGenerator.create_prompt` (source lines 1035-1051): `enhanced` is the
result of `generate_enhanced_prompt` (`none` models `None`); the Python guard
is `if not enhanced_prompt`, so both `None` and the empty string fall back. -/
def create_prompt (enhanced : Option String) (quote styleName : String)
    (characteristics : List String) : String :=
  match enhanced with
  | some s => if s = "" then basicPrompt quote styleName characteristics else s
  | none => basicPrompt quote styleName characteristics

/-- `pat` occurs in `s` as a contiguous substring. -/
def containsSub (s pat : String) : Prop :=
  ∃ a b : String, s = a ++ pat ++ b

/-! ## Image rendering backends and cross-backend fallback
(source lines 1053-1088, 1111-1201, 1203-1219) -/

/-- The two interchangeable image-rendering backends. -/
inductive RenderBackend
  | venice
  | together
deriving DecidableEq, Repr

/-- The keyword list of the length-classification check in
`VeniceImageGenerator.generate_image` (source line 1192). -/
def lengthKeywords : List String := ["length", "size", "too long", "limit"]

/-- Python `str.lower()` on the code points of a string (the exception
messages classified here are ASCII, where `Char.toLower` agrees with Python). -/
def toLowerChars (s : List Char) : List Char := s.map Char.toLower

/-- The classification `any(keyword in str(e).lower() for keyword in [...])`
(source lines 1191-1192); `keyword in text` is substring containment. -/
def isLengthRelated (msg : String) : Bool :=
  lengthKeywords.any (fun k => decide (k.toList <:+: toLowerChars msg.toList))

/-- `ImageGenerator.generate_image` — the Together AI backend (source lines
1053-1088).  `outcome` is the final result of the Together call including the
image download (`Except.error` carries the message of whatever exception was
caught).  Every failure path logs and returns `None`; there is no fallback of
any kind to the Venice backend.  The second component records which backends
were attempted. -/
def together_generate_image (outcome : Except String (List Nat)) :
    Option (List Nat) × List RenderBackend :=
  match outcome with
  | Except.ok bs => (some bs, [RenderBackend.together])
  | Except.error _ => (none, [RenderBackend.together])

/-- `VeniceImageGenerator.generate_image` (source lines 1111-1201).
`veniceOutcome` is the final outcome of the Venice call after its internal
retry loop (`Except.error` carries `str(e)` of the exception reaching the
outer handler).  On an error whose lowercased message contains a length/size
keyword, the same request is retried once against the Together backend
(source lines 1190-1199); any other error returns `None` with no fallback. -/
def venice_generate_image (veniceOutcome : Except String (List Nat))
    (togetherOutcome : Except String (List Nat)) :
    Option (List Nat) × List RenderBackend :=
  match veniceOutcome with
  | Except.ok bs => (some bs, [RenderBackend.venice])
  | Except.error e =>
    if isLengthRelated e then
      let fb := together_generate_image togetherOutcome
      (fb.1, RenderBackend.venice :: fb.2)
    else (none, [RenderBackend.venice])

/-- `ImageGeneratorFactory.get_image_generator` (source lines 1203-1219): the
backend selected by the `IMAGE_SERVICE` configuration, with Together as the
default and as the substitute when the Venice credential is missing. -/
def get_image_generator (service : String) (veniceKeyPresent : Bool) : RenderBackend :=
  if service = "venice" then
    if veniceKeyPresent then RenderBackend.venice else RenderBackend.together
  else RenderBackend.together

/-! ## Publishing and the run outcome (source lines 1375-1489) -/

/-- `TwitterBot.post_image` (source lines 1419-1443).  `prep` is the outcome of
the preparation code inside the outer `try` (image optimization and caption
formatting), `tweet` the outcome of the media upload and tweet creation inside
the inner `try`.  Disabled posting returns `True`; a successful post returns
`True`; the inner `except` logs and returns `True`; the outer `except` logs
and returns `True`. -/
def post_image (twitterEnabled : Bool) (prep : Except String Unit)
    (tweet : Except String String) : Bool :=
  if !twitterEnabled then true
  else
    match prep with
    | Except.error _ => true
    | Except.ok _ =>
      match tweet with
      | Except.ok _ => true
      | Except.error _ => true

/-- Python truthiness of the `Optional[bytes]` returned by a rendering
backend: `None` and empty bytes are falsy. -/
def imageProduced : Option (List Nat) → Bool
  | none => false
  | some bs => !bs.isEmpty

/-- `process_quote_and_image` (source lines 1445-1489), from the point where a
quote is in hand.  `imageBytes` is the rendering result, `telegramOk` the
result of the mandatory Telegram publish, and the Twitter arguments feed
`post_image`, whose result is only logged (source lines 1478-1481): a falsy
image aborts with `False`, a failed Telegram publish aborts with `False`, and
otherwise the run returns `True` whatever Twitter did. -/
def process_quote_and_image (imageBytes : Option (List Nat)) (telegramOk : Bool)
    (twitterEnabled : Bool) (prep : Except String Unit)
    (tweet : Except String String) : Bool :=
  if !imageProduced imageBytes then false
  else if !telegramOk then false
  else if twitterEnabled then
    let twitterSuccess := post_image twitterEnabled prep tweet
    -- `if not twitter_success:` only logs a warning (line 1481)
    if !twitterSuccess then true else true
  else true

/-! ## Lemmas: evaluating the truncation pipeline -/

theorem replaceChars_head_not_mem (c : Char) (cs new : List Char) :
    ∀ s : List Char, c ∉ s → replaceChars (c :: cs) new s = s := by
  intro s
  induction s with
  | nil => intro _; simp [replaceChars]
  | cons d rest ih =>
    intro hmem
    rw [replaceChars, dif_neg]
    · rw [ih (fun hc => hmem (List.mem_cons_of_mem _ hc))]
    · rintro ⟨-, hp⟩
      rcases (List.cons_prefix_cons.mp hp) with ⟨rfl, -⟩
      exact hmem (List.mem_cons_self _ _)

theorem removePhrases_congr {s : List Char} :
    ∀ ps : List (List Char), (∀ p ∈ ps, replaceChars p [] s = s) →
      removePhrases ps s = s := by
  intro ps
  induction ps with
  | nil => intro _; rfl
  | cons p ps ih =>
    intro h
    simp only [removePhrases]
    split
    · rfl
    · rw [h p (List.mem_cons_self _ _)]
      exact ih fun q hq => h q (List.mem_cons_of_mem _ hq)

theorem removePhrases_redundant_eq_self {s : List Char}
    (ht : 't' ∉ s) (hm : 'm' ∉ s) (he : 'e' ∉ s) :
    removePhrases redundant_phrases s = s := by
  apply removePhrases_congr
  intro p hp
  simp only [redundant_phrases, List.mem_cons, List.not_mem_nil, or_false] at hp
  rcases hp with rfl | rfl | rfl | rfl | rfl | rfl | rfl
  · exact replaceChars_head_not_mem 't' _ _ s ht
  · exact replaceChars_head_not_mem 't' _ _ s ht
  · exact replaceChars_head_not_mem 't' _ _ s ht
  · exact replaceChars_head_not_mem 'm' _ _ s hm
  · exact replaceChars_head_not_mem 'e' _ _ s he
  · exact replaceChars_head_not_mem 't' _ _ s ht
  · exact replaceChars_head_not_mem 't' _ _ s ht

theorem removeWords_no_space {s : List Char} (hs : ' ' ∉ s) :
    ∀ ws : List String, removeWords ws s = s := by
  intro ws
  induction ws with
  | nil => rfl
  | cons w ws ih =>
    simp only [removeWords]
    split
    · rfl
    · rw [replaceChars_head_not_mem ' ' _ _ s hs, ih]

theorem lastSpaceAux_no_space :
    ∀ s : List Char, ' ' ∉ s → ∀ i, lastSpaceAux s i none = none := by
  intro s
  induction s with
  | nil => intro _ _; rfl
  | cons c rest ih =>
    intro h i
    simp only [lastSpaceAux]
    rw [if_neg (by rintro rfl; exact h (List.mem_cons_self _ _))]
    exact ih (fun hc => h (List.mem_cons_of_mem _ hc)) (i + 1)

theorem lastSpace_no_space {s : List Char} (h : ' ' ∉ s) : lastSpace s = none :=
  lastSpaceAux_no_space s h 0

theorem rstrip_eq_self {s : List Char}
    (h : ∀ c ∈ s, c ∉ pythonWhitespace) : rstrip s = s := by
  unfold rstrip
  cases hrev : s.reverse with
  | nil =>
    simp [List.reverse_eq_nil_iff.mp hrev]
  | cons c t =>
    rw [List.dropWhile_cons]
    have hc : c ∈ s := List.mem_reverse.mp (by rw [hrev]; exact List.mem_cons_self c t)
    rw [if_neg (by simpa using h c hc), ← hrev, List.reverse_reverse]

theorem not_mem_replicate_of_ne {x c : Char} (hx : x ≠ c) (n : Nat) :
    x ∉ List.replicate n c := fun hmem => hx (List.eq_of_mem_replicate hmem)

theorem dots_toList : ("...").toList = ['.', '.', '.'] := rfl

theorem not_mem_repl_dots {x : Char} (h1 : x ≠ 'a') (h2 : x ≠ '.') :
    x ∉ List.replicate 1500 'a' ++ ("...").toList := by
  intro hmem
  rcases List.mem_append.mp hmem with hmem | hmem
  · exact h1 (List.eq_of_mem_replicate hmem)
  · rw [dots_toList] at hmem
    simp only [List.mem_cons, List.not_mem_nil, or_false] at hmem
    rcases hmem with rfl | rfl | rfl <;> exact h2 rfl

theorem truncate_prompt_aaa :
    truncate_prompt (List.replicate 1700 'a') =
      List.replicate 1500 'a' ++ ("...").toList := by
  have hta : 't' ∉ List.replicate 1700 'a' := not_mem_replicate_of_ne (by decide) _
  have hma : 'm' ∉ List.replicate 1700 'a' := not_mem_replicate_of_ne (by decide) _
  have hea : 'e' ∉ List.replicate 1700 'a' := not_mem_replicate_of_ne (by decide) _
  have hsa : ' ' ∉ List.replicate 1700 'a' := not_mem_replicate_of_ne (by decide) _
  have hs1500 : ' ' ∉ List.replicate 1500 'a' := not_mem_replicate_of_ne (by decide) _
  have hws : ∀ c ∈ List.replicate 1500 'a', c ∉ pythonWhitespace := by
    intro c hc
    rw [List.eq_of_mem_replicate hc]
    decide
  rw [truncate_prompt,
    if_neg (by simp only [List.length_replicate, VENICE_PROMPT_LIMIT]; norm_num)]
  rw [removePhrases_redundant_eq_self hta hma hea]
  rw [removeWords_no_space hsa words_to_remove]
  rw [hardCut, if_pos (by simp only [List.length_replicate, VENICE_PROMPT_LIMIT]; norm_num)]
  rw [show (List.replicate 1700 'a').take VENICE_PROMPT_LIMIT = List.replicate 1500 'a' by
        rw [VENICE_PROMPT_LIMIT, List.take_replicate]; norm_num]
  rw [lastSpace_no_space hs1500]
  rw [addEllipsisMark, if_pos (by simp only [List.length_replicate]; norm_num),
    rstrip_eq_self hws]

theorem truncate_prompt_aaa_dots :
    truncate_prompt (List.replicate 1500 'a' ++ ("...").toList) =
      List.replicate 1500 'a' := by
  have hta := not_mem_repl_dots (x := 't') (by decide) (by decide)
  have hma := not_mem_repl_dots (x := 'm') (by decide) (by decide)
  have hea := not_mem_repl_dots (x := 'e') (by decide) (by decide)
  have hsa := not_mem_repl_dots (x := ' ') (by decide) (by decide)
  have hs1500 : ' ' ∉ List.replicate 1500 'a' := not_mem_replicate_of_ne (by decide) _
  have hlen : (List.replicate 1500 'a' ++ ("...").toList).length = 1503 := by
    rw [dots_toList]
    simp only [List.length_append, List.length_replicate, List.length_cons,
      List.length_nil]
  rw [truncate_prompt, if_neg (by rw [hlen, VENICE_PROMPT_LIMIT]; norm_num)]
  rw [removePhrases_redundant_eq_self hta hma hea]
  rw [removeWords_no_space hsa words_to_remove]
  rw [hardCut, if_pos (by rw [hlen, VENICE_PROMPT_LIMIT]; norm_num)]
  rw [show (List.replicate 1500 'a' ++ ("...").toList).take VENICE_PROMPT_LIMIT =
        List.replicate 1500 'a' by
        rw [VENICE_PROMPT_LIMIT,
          List.take_left' (by simp only [List.length_replicate])]]
  rw [lastSpace_no_space hs1500]
  rw [addEllipsisMark,
    if_neg (by rw [hlen]; simp only [List.length_replicate]; norm_num)]

theorem optimize_prompt_aaa :
    optimize_prompt (List.replicate 1700 'a') =
      (List.replicate 1500 'a' ++ ("...").toList, true) := by
  rw [optimize_prompt, if_neg (by
    simp only [validate_prompt_length, VENICE_PROMPT_LIMIT, List.length_replicate,
      decide_eq_true_eq]
    norm_num)]
  rw [truncate_prompt_aaa]

theorem optimize_prompt_aaa_dots :
    optimize_prompt (List.replicate 1500 'a' ++ ("...").toList) =
      (List.replicate 1500 'a', true) := by
  rw [optimize_prompt, if_neg (by
    simp only [validate_prompt_length, VENICE_PROMPT_LIMIT, dots_toList,
      List.length_append, List.length_replicate, List.length_cons, List.length_nil,
      decide_eq_true_eq]
    norm_num)]
  rw [truncate_prompt_aaa_dots]

/-! ## Lemmas: the weighted selection walk -/

theorem totalWeight_cons (t : String × ArtStyle) (rest : StyleCatalog) :
    totalWeight (t :: rest) = t.2.weight + totalWeight rest := by
  simp [totalWeight]

theorem getLastD_mem {α : Type} : ∀ (l : List α) (d : α), l.getLastD d ∈ d :: l := by
  intro l
  induction l with
  | nil => intro d; simp
  | cons a l ih =>
    intro d
    rw [List.getLastD_cons]
    exact List.mem_cons_of_mem d (ih a)

theorem selectLoop_mem {r : ℚ} :
    ∀ (styles : StyleCatalog) (current : Nat) (s : String × ArtStyle),
      selectLoop r current styles = some s → s ∈ styles := by
  intro styles
  induction styles with
  | nil => intro _ _ h; exact absurd h (by simp [selectLoop])
  | cons t rest ih =>
    intro current s h
    simp only [selectLoop] at h
    split at h
    · cases h
      exact List.mem_cons_self _ _
    · exact List.mem_cons_of_mem _ (ih _ _ h)

theorem selectLoop_some_of_le {r : ℚ} :
    ∀ styles : StyleCatalog, styles ≠ [] → ∀ current : Nat,
      r ≤ ((current + totalWeight styles : ℕ) : ℚ) →
      ∃ s, selectLoop r current styles = some s := by
  intro styles
  induction styles with
  | nil => intro h; exact absurd rfl h
  | cons t rest ih =>
    intro _ current hle
    by_cases hc : r ≤ ((current + t.2.weight : ℕ) : ℚ)
    · refine ⟨t, ?_⟩
      simp only [selectLoop]
      rw [if_pos hc]
    · cases rest with
      | nil =>
        exfalso
        apply hc
        rw [totalWeight_cons] at hle
        simpa [totalWeight] using hle
      | cons u rest2 =>
        obtain ⟨s, hs⟩ := ih (by simp) (current + t.2.weight) (by
          rw [totalWeight_cons] at hle
          rw [← Nat.add_assoc] at hle
          exact hle)
        refine ⟨s, ?_⟩
        simp only [selectLoop]
        rw [if_neg hc]
        exact hs

theorem selectLoop_weight_pos {r : ℚ} :
    ∀ (styles : StyleCatalog) (current : Nat) (s : String × ArtStyle),
      ((current : ℕ) : ℚ) < r → selectLoop r current styles = some s →
      0 < s.2.weight := by
  intro styles
  induction styles with
  | nil => intro _ _ _ h; exact absurd h (by simp [selectLoop])
  | cons t rest ih =>
    intro current s hcur h
    simp only [selectLoop] at h
    split at h
    case isTrue hc =>
      cases h
      rcases Nat.eq_zero_or_pos t.2.weight with hw | hw
      · exfalso
        rw [hw, Nat.add_zero] at hc
        exact absurd hcur (not_lt.mpr hc)
      · exact hw
    case isFalse hc =>
      exact ih (current + t.2.weight) s (not_le.mp hc) h

theorem select_style_mem {styles : StyleCatalog} {r : ℚ} {s : String × ArtStyle}
    (h : select_style styles r = Except.ok s) : s ∈ styles := by
  cases styles with
  | nil => simp [select_style] at h
  | cons s0 rest =>
    rw [select_style] at h
    rcases hloop : selectLoop r 0 (s0 :: rest) with _ | t
    · rw [hloop] at h
      simp only [Except.ok.injEq] at h
      rw [← h]
      exact getLastD_mem rest s0
    · rw [hloop] at h
      simp only [Except.ok.injEq] at h
      rw [← h]
      exact selectLoop_mem _ _ _ hloop

/-! ## Lemmas: the per-source retry loops -/

theorem bible21FetchAux_chain (pages : Nat → B21Page) (maxRetries : Nat) :
    ∀ k attempt : Nat, attempt + k < maxRetries →
      (∀ j, j < k → ∃ m, pages (attempt + j) = B21Page.netError m) →
      pages (attempt + k) = B21Page.noElement →
      bible21FetchAux pages maxRetries attempt = ⟨none, k + 1, k⟩ := by
  intro k
  induction k with
  | zero =>
    intro attempt hlt _ hend
    rw [Nat.add_zero] at hend hlt
    rw [bible21FetchAux, if_pos hlt, hend]
  | succ k ih =>
    intro attempt hlt hchain hend
    obtain ⟨m, hm⟩ := hchain 0 (by omega)
    rw [Nat.add_zero] at hm
    rw [bible21FetchAux, if_pos (by omega), hm]
    have hrec : bible21FetchAux pages maxRetries (attempt + 1) = ⟨none, k + 1, k⟩ := by
      refine ih (attempt + 1) (by omega) (fun j hj => ?_) ?_
      · obtain ⟨m2, hm2⟩ := hchain (j + 1) (by omega)
        exact ⟨m2, by rwa [show attempt + 1 + j = attempt + (j + 1) by omega]⟩
      · rwa [show attempt + 1 + k = attempt + (k + 1) by omega]
    rw [if_pos (by omega), hrec]

theorem dvFetchAux_chain (pages : Nat → DVPage) (maxRetries : Nat) :
    ∀ k attempt : Nat, attempt + k < maxRetries →
      (∀ j, j < k → ∃ m, pages (attempt + j) = DVPage.netError m) →
      pages (attempt + k) = DVPage.noDiv →
      dvFetchAux pages maxRetries attempt = ⟨none, k + 1, k⟩ := by
  intro k
  induction k with
  | zero =>
    intro attempt hlt _ hend
    rw [Nat.add_zero] at hend hlt
    rw [dvFetchAux, if_pos hlt, hend]
  | succ k ih =>
    intro attempt hlt hchain hend
    obtain ⟨m, hm⟩ := hchain 0 (by omega)
    rw [Nat.add_zero] at hm
    rw [dvFetchAux, if_pos (by omega), hm]
    have hrec : dvFetchAux pages maxRetries (attempt + 1) = ⟨none, k + 1, k⟩ := by
      refine ih (attempt + 1) (by omega) (fun j hj => ?_) ?_
      · obtain ⟨m2, hm2⟩ := hchain (j + 1) (by omega)
        exact ⟨m2, by rwa [show attempt + 1 + j = attempt + (j + 1) by omega]⟩
      · rwa [show attempt + 1 + k = attempt + (k + 1) by omega]
    rw [if_pos (by omega), hrec]

theorem dvFetchAux_all_divNoSpan (pages : Nat → DVPage) (maxRetries : Nat)
    (hall : ∀ j, j < maxRetries → pages j = DVPage.divNoSpan) :
    ∀ n attempt : Nat, maxRetries = attempt + n →
      dvFetchAux pages maxRetries attempt = ⟨none, n, 0⟩ := by
  intro n
  induction n with
  | zero =>
    intro attempt heq
    rw [dvFetchAux, if_neg (by omega)]
  | succ n ih =>
    intro attempt heq
    rw [dvFetchAux, if_pos (by omega), hall attempt (by omega)]
    rw [ih (attempt + 1) (by omega)]

theorem repl_dots_length : (List.replicate 1500 'a' ++ ("...").toList).length = 1503 := by
  rw [dots_toList]
  simp only [List.length_append, List.length_replicate, List.length_cons, List.length_nil]

/-! ## Claim C1 -/

/-- C1: the specification states that `optimize_prompt` (via `truncate_prompt`)
always returns text of length at most the hard budget `VENICE_PROMPT_LIMIT`
(1500 characters), including on the path where the ellipsis marker is appended
after a hard cut.  The code violates this and its own docstring ("Truncated
prompt that fits within the character limit"): evaluated at the 1700-character
spaceless input `'a' * 1700`, the hard cut produces exactly 1500 characters and
the ellipsis step then appends three more, returning 1503 > 1500 characters
with `was_truncated = true`. -/
theorem c1_budget_violation_eval :
    (optimize_prompt (List.replicate 1700 'a')).2 = true ∧
    (optimize_prompt (List.replicate 1700 'a')).1.length = 1503 ∧
    VENICE_PROMPT_LIMIT < (optimize_prompt (List.replicate 1700 'a')).1.length := by
  rw [optimize_prompt_aaa]
  refine ⟨rfl, repl_dots_length, ?_⟩
  rw [show ((List.replicate 1500 'a' ++ ("...").toList, true).1 : List Char) =
        List.replicate 1500 'a' ++ ("...").toList from rfl, repl_dots_length,
    VENICE_PROMPT_LIMIT]
  norm_num

/-! ## Claim C4 -/

/-- C4 counterexample: the claim states that `optimize_prompt` is idempotent
for every input.  At the input `'a' * 1700` the first application returns the
1503-character text `'a' * 1500 ++ "..."`, and the second application truncates
it again to `'a' * 1500`, so applying the enforcer twice differs from applying
it once. -/
theorem c4_counterexample :
    (optimize_prompt (optimize_prompt (List.replicate 1700 'a')).1).1 ≠
      (optimize_prompt (List.replicate 1700 'a')).1 := by
  simp only [optimize_prompt_aaa, optimize_prompt_aaa_dots]
  intro h
  have hlen := congrArg List.length h
  rw [repl_dots_length, List.length_replicate] at hlen
  omega

/-- C4 amended: `optimize_prompt` is idempotent on every input whose first
application already yields a result within the 1500-character budget (which the
counterexample shows is not all inputs: the ellipsis step can push the result
over the budget, and only then does re-application change the text). -/
theorem c4_idempotent_within_budget (p : List Char)
    (h : (optimize_prompt p).1.length ≤ VENICE_PROMPT_LIMIT) :
    optimize_prompt (optimize_prompt p).1 = ((optimize_prompt p).1, false) := by
  set q := (optimize_prompt p).1 with hq
  have hv : (validate_prompt_length q).1 = true := by
    simp only [validate_prompt_length, decide_eq_true_eq]
    exact h
  rw [optimize_prompt, if_pos hv]

/-- Witness for C4 amended at the two-character input "hi". -/
theorem c4_idempotent_witness :
    optimize_prompt (optimize_prompt ("hi").toList).1 =
      ((optimize_prompt ("hi").toList).1, false) :=
  c4_idempotent_within_budget _ (by decide)

/-! ## Claim C3 -/

/-- A catalog entry with weight 0 placed first. -/
def styleZero : ArtStyle :=
  { description := "zero weighted", characteristics := [], weight := 0,
    shortcut := "zz" }

/-- A catalog entry with weight 5. -/
def styleFive : ArtStyle :=
  { description := "five weighted", characteristics := [], weight := 5,
    shortcut := "ff" }

/-- A catalog whose first entry has weight 0. -/
def zeroFirstCatalog : StyleCatalog :=
  [("zero_first", styleZero), ("alpha", styleFive)]

/-- C3 counterexample: the claim states that for every catalog and every draw
`r` in the sampled range `[0, total_weight]`, `select_style` never returns an
entry of weight 0.  But `random.uniform(0, total)` can return exactly `0`, and
at `r = 0` the walk's very first test `r <= current` succeeds on a leading
weight-0 entry, which is then returned. -/
theorem c3_counterexample :
    (0 : ℚ) ≤ ((totalWeight zeroFirstCatalog : ℕ) : ℚ) ∧
    select_style zeroFirstCatalog 0 = Except.ok ("zero_first", styleZero) ∧
    styleZero.weight = 0 := by
  refine ⟨by positivity, ?_, rfl⟩
  have hloop : selectLoop 0 0 zeroFirstCatalog = some ("zero_first", styleZero) := by
    rw [zeroFirstCatalog]
    simp only [selectLoop]
    rw [if_pos (by norm_num [styleZero])]
  rw [zeroFirstCatalog] at hloop ⊢
  simp only [select_style, hloop]

/-- C3 amended: for every catalog and every draw `r` with `0 < r ≤ total`,
`select_style` never returns an entry of weight 0; only the measure-zero draw
`r = 0` of `random.uniform` can select a leading zero-weight entry. -/
theorem c3_no_zero_weight_selected (styles : StyleCatalog) (r : ℚ)
    (s : String × ArtStyle) (h0 : 0 < r)
    (h1 : r ≤ ((totalWeight styles : ℕ) : ℚ))
    (hs : select_style styles r = Except.ok s) : 0 < s.2.weight := by
  cases styles with
  | nil =>
    exfalso
    simp only [totalWeight, List.map_nil, List.sum_nil, Nat.cast_zero] at h1
    linarith
  | cons s0 rest =>
    obtain ⟨t, ht⟩ := selectLoop_some_of_le (r := r) (s0 :: rest) (by simp) 0
      (by simpa using h1)
    rw [select_style] at hs
    rw [ht] at hs
    simp only [Except.ok.injEq] at hs
    rw [← hs]
    exact selectLoop_weight_pos _ 0 t (by rw [Nat.cast_zero]; exact h0) ht

/-- Witness for C3 amended: on `zeroFirstCatalog` with `r = 1` the selector
returns the weight-5 entry, whose weight is positive. -/
theorem c3_no_zero_weight_witness :
    0 < (("alpha", styleFive) : String × ArtStyle).2.weight :=
  c3_no_zero_weight_selected zeroFirstCatalog 1 ("alpha", styleFive)
    (by norm_num)
    (by norm_num [totalWeight, zeroFirstCatalog, styleZero, styleFive])
    (by
      have hloop : selectLoop 1 0 zeroFirstCatalog = some ("alpha", styleFive) := by
        rw [zeroFirstCatalog]
        simp only [selectLoop]
        rw [if_neg (by norm_num [styleZero]), if_pos (by norm_num [styleZero, styleFive])]
      rw [zeroFirstCatalog] at hloop ⊢
      simp only [select_style, hloop])

/-! ## Claim C6 -/

/-- A non-empty catalog whose total weight is 0. -/
def zeroOnlyCatalog : StyleCatalog := [("zero_only", styleZero)]

/-- C6 counterexample: the claim states that `select_style` fails explicitly
both on a zero-entry catalog and on a non-empty catalog of total weight 0.
But on a non-empty catalog of total weight 0 the draw is
`random.uniform(0, 0) = 0` and the walk's first test `0 <= 0` succeeds, so the
first entry is silently returned instead of an error being raised. -/
theorem c6_counterexample :
    zeroOnlyCatalog ≠ [] ∧ totalWeight zeroOnlyCatalog = 0 ∧
    select_style zeroOnlyCatalog 0 = Except.ok ("zero_only", styleZero) := by
  refine ⟨by simp [zeroOnlyCatalog], by simp [totalWeight, zeroOnlyCatalog, styleZero], ?_⟩
  have hloop : selectLoop 0 0 zeroOnlyCatalog = some ("zero_only", styleZero) := by
    rw [zeroOnlyCatalog]
    simp only [selectLoop]
    rw [if_pos (by norm_num [styleZero])]
  rw [zeroOnlyCatalog] at hloop ⊢
  simp only [select_style, hloop]

/-- C6 amended: `select_style` raises its explicit `ValueError` exactly on a
zero-entry catalog; on a non-empty catalog of total weight 0 (where the only
possible draw is `r = 0`) it silently returns the first entry. -/
theorem c6_degenerate_catalog :
    (∀ r : ℚ, select_style [] r =
      Except.error "No styles available for selection") ∧
    (∀ (s0 : String × ArtStyle) (rest : StyleCatalog),
      totalWeight (s0 :: rest) = 0 →
      select_style (s0 :: rest) 0 = Except.ok s0) := by
  constructor
  · intro r
    rfl
  · intro s0 rest htot
    have hw : s0.2.weight = 0 := by
      rw [totalWeight_cons] at htot
      omega
    have hloop : selectLoop 0 0 (s0 :: rest) = some s0 := by
      simp only [selectLoop]
      rw [if_pos (by rw [hw]; norm_num)]
    rw [select_style, hloop]

/-- Witness for C6 amended on a two-entry catalog of total weight 0. -/
theorem c6_degenerate_witness :
    select_style [("z1", styleZero), ("z2", styleZero)] 0 =
      Except.ok ("z1", styleZero) :=
  c6_degenerate_catalog.2 ("z1", styleZero) [("z2", styleZero)]
    (by simp [totalWeight, styleZero])

/-! ## Claim C5 -/

/-- C5: `QuoteFetcher.fetch_quote` satisfies the source-chain contract: a
truthy primary result is returned at once with the fallback never invoked; a
falsy primary with a distinct truthy fallback returns the fallback's result;
two falsy results yield the explicit no-content `None` rather than an
exception; and when fallback and primary coincide the fallback attempt is
skipped. -/
theorem c5_source_chain (env : String → Option String) (current fallback : String) :
    (truthyStr (env current) = true →
      fetch_quote env current fallback = (env current, [current])) ∧
    (truthyStr (env current) = false → fallback ≠ current →
      truthyStr (env fallback) = true →
      fetch_quote env current fallback = (env fallback, [current, fallback])) ∧
    (truthyStr (env current) = false → truthyStr (env fallback) = false →
      (fetch_quote env current fallback).1 = none) ∧
    (fallback = current → (fetch_quote env current fallback).2 = [current]) := by
  refine ⟨?_, ?_, ?_, ?_⟩
  · intro h1
    simp [fetch_quote, h1]
  · intro h1 h2 h3
    simp [fetch_quote, h1, h2, h3]
  · intro h1 h3
    by_cases h2 : fallback = current
    · simp [fetch_quote, h1, h2]
    · simp [fetch_quote, h1, h2, h3]
  · intro h2
    simp only [fetch_quote, h2]
    by_cases h1 : truthyStr (env current) = true
    · simp [h1]
    · simp [h1]

/-- Demonstration environment for the C5 witness: the primary source answers,
the fallback does not. -/
def primaryOnlyEnv : String → Option String :=
  fun s => if s = "bible21" then some "Gen 1:1" else none

/-- Witness for C5 at a truthy primary: the primary's quote is returned and
only the primary was invoked. -/
theorem c5_source_chain_witness :
    fetch_quote primaryOnlyEnv "bible21" "dailyverses" =
      (primaryOnlyEnv "bible21", ["bible21"]) :=
  (c5_source_chain primaryOnlyEnv "bible21" "dailyverses").1 (by decide)

/-! ## Claim C7 -/

theorem str_append_assoc (a b c : String) : a ++ b ++ c = a ++ (b ++ c) := by
  apply String.ext
  simp only [String.data_append, List.append_assoc]

/-- C7: whenever the prompt-authoring backend yields no prompt (`None` or the
empty string, the falsy cases of `if not enhanced_prompt`), `create_prompt`
falls back to the deterministic locally-built instruction, which is a total
string construction (it cannot fail) and contains both the literal quote text
and the style name as substrings. -/
theorem c7_fallback_contains (enhanced : Option String) (quote styleName : String)
    (characteristics : List String)
    (h : enhanced = none ∨ enhanced = some "") :
    containsSub (create_prompt enhanced quote styleName characteristics) quote ∧
    containsSub (create_prompt enhanced quote styleName characteristics) styleName := by
  have hbp : create_prompt enhanced quote styleName characteristics =
      basicPrompt quote styleName characteristics := by
    rcases h with rfl | rfl
    · rfl
    · simp [create_prompt]
  rw [hbp]
  constructor
  · exact ⟨basicPromptHead,
      basicPromptMid ++ styleName ++ basicPromptTail characteristics, by
        simp only [basicPrompt, str_append_assoc]⟩
  · exact ⟨basicPromptHead ++ quote ++ basicPromptMid,
      basicPromptTail characteristics, rfl⟩

/-- Witness for C7 with a failed prompt backend (`None`) at scenario A's quote
and style. -/
theorem c7_fallback_witness :
    containsSub
      (create_prompt none "In the beginning... (Gen 1:1)" "minimalism"
        ["simple forms", "clean lines"]) "In the beginning... (Gen 1:1)" ∧
    containsSub
      (create_prompt none "In the beginning... (Gen 1:1)" "minimalism"
        ["simple forms", "clean lines"]) "minimalism" :=
  c7_fallback_contains none "In the beginning... (Gen 1:1)" "minimalism"
    ["simple forms", "clean lines"] (Or.inl rfl)

/-! ## Claim C2 -/

/-- C2 counterexample: the claim states that a length-classified rendering
failure is retried once against the other backend whichever of Venice or
Together is selected.  But `ImageGenerator.generate_image` (the Together
backend, selectable via `get_image_generator`) catches every error and returns
`None` without ever attempting the Venice backend — here shown on an error
message that the length classifier itself accepts as length-related. -/
theorem c2_counterexample :
    get_image_generator "together" true = RenderBackend.together ∧
    isLengthRelated "Prompt length 1600 exceeds limit" = true ∧
    together_generate_image (Except.error "Prompt length 1600 exceeds limit") =
      (none, [RenderBackend.together]) := by
  refine ⟨rfl, by decide, rfl⟩

/-- C2 amended: cross-backend fallback exists only in the Venice direction.
When the Venice backend is selected, a length-classified failure triggers
exactly one fallback attempt against Together and any other failure is not
retried across backends; the Together backend never attempts Venice on any
outcome. -/
theorem c2_cross_backend_fallback (e : String)
    (togetherOutcome : Except String (List Nat)) :
    (isLengthRelated e = true →
      (venice_generate_image (Except.error e) togetherOutcome).2 =
        [RenderBackend.venice, RenderBackend.together]) ∧
    (isLengthRelated e = false →
      venice_generate_image (Except.error e) togetherOutcome =
        (none, [RenderBackend.venice])) ∧
    (∀ outcome : Except String (List Nat),
      (together_generate_image outcome).2 = [RenderBackend.together]) ∧
    (∀ bs : List Nat,
      venice_generate_image (Except.ok bs) togetherOutcome =
        (some bs, [RenderBackend.venice])) := by
  refine ⟨?_, ?_, ?_, ?_⟩
  · intro h
    cases togetherOutcome <;>
      simp [venice_generate_image, together_generate_image, h]
  · intro h
    simp [venice_generate_image, h]
  · intro outcome
    cases outcome <;> rfl
  · intro bs
    rfl

/-- Witness for C2 amended: a length-classified Venice failure falls back to
Together exactly once. -/
theorem c2_cross_backend_witness :
    (venice_generate_image (Except.error "image size limit exceeded")
        (Except.ok [7])).2 = [RenderBackend.venice, RenderBackend.together] :=
  (c2_cross_backend_fallback "image size limit exceeded" (Except.ok [7])).1
    (by decide)

/-! ## Claim C8 -/

/-- C8: the run result of `process_quote_and_image` (given a fetched quote) is
`True` exactly when image bytes were produced (non-`None`, non-empty) and the
mandatory Telegram publish succeeded; and `TwitterBot.post_image` returns
`True` on every path — posting disabled, post succeeded, the inner upload
`except`, and the outer preparation `except` — so the optional Twitter channel
can never change the run outcome. -/
theorem c8_run_outcome (imageBytes : Option (List Nat))
    (telegramOk twitterEnabled : Bool) (prep : Except String Unit)
    (tweet : Except String String) :
    (process_quote_and_image imageBytes telegramOk twitterEnabled prep tweet = true ↔
      (imageProduced imageBytes = true ∧ telegramOk = true)) ∧
    post_image twitterEnabled prep tweet = true := by
  have hpost : post_image twitterEnabled prep tweet = true := by
    cases twitterEnabled with
    | false => rfl
    | true =>
      cases prep with
      | error _ => rfl
      | ok _ => cases tweet <;> rfl
  refine ⟨?_, hpost⟩
  cases himg : imageProduced imageBytes with
  | false => simp [process_quote_and_image, himg]
  | true =>
    cases telegramOk with
    | false => simp [process_quote_and_image, himg]
    | true =>
      cases twitterEnabled <;> simp [process_quote_and_image, himg, hpost]

/-! ## Claim C9 -/

/-- C9 counterexample: the claim states that no pipeline operation ever
mutates an `IMAGE_ART` catalog entry — in particular that selecting a style
leaves every entry's key set unchanged.  But `get_random_art_style` executes
`style['name'] = style_name` on the dict aliased inside the catalog: before
the call no entry carries a `name` key; after a call selecting the first entry
(draw `r = 1` falls inside impressionism's weight 9) the impressionism entry
carries the new key `name = "impressionism"`, so its key set grew. -/
theorem c9_counterexample :
    catalogNames IMAGE_ART = List.replicate 13 none ∧
    (match get_random_art_style IMAGE_ART 1 with
     | Except.ok (_, c2) => catalogNames c2
     | Except.error _ => []) =
      some "impressionism" :: List.replicate 12 none := by
  constructor
  · decide
  · decide

/-- C9 amended: the selection operation does mutate the catalog, but only by
writing the selected entry's own key into its `name` slot: for any catalog
with pairwise-distinct keys (as a Python dict guarantees), the catalog after
`get_random_art_style` agrees with the catalog before it on every key and on
every field except `name`. -/
theorem c9_mutation_only_name (c : StyleCatalog) (r : ℚ) (st : ArtStyle)
    (c2 : StyleCatalog) (hkeys : (c.map Prod.fst).Nodup)
    (h : get_random_art_style c r = Except.ok (st, c2)) :
    eraseNames c2 = eraseNames c := by
  rcases hsel : select_style c r with e | p
  · rw [get_random_art_style, hsel] at h
    exact absurd h (by simp)
  · obtain ⟨nm, s⟩ := p
    have hmem : (nm, s) ∈ c := select_style_mem hsel
    rw [get_random_art_style, hsel] at h
    simp only [Except.ok.injEq, Prod.mk.injEq] at h
    obtain ⟨hst, hc2⟩ := h
    rw [← hc2]
    unfold eraseNames
    rw [List.map_map]
    apply List.map_congr_left
    intro p hp
    by_cases hkey : p.1 = nm
    · have hpeq : p = (nm, s) :=
        List.inj_on_of_nodup_map hkeys hp hmem (by simpa using hkey)
      subst hpeq
      simp
    · simp [Function.comp, hkey]

/-- Witness for C9 amended on a one-entry catalog selected at `r = 1`. -/
theorem c9_mutation_witness :
    eraseNames [("solo", { styleFive with name := some "solo" })] =
      eraseNames [("solo", styleFive)] :=
  c9_mutation_only_name [("solo", styleFive)] 1
    { styleFive with name := some "solo" }
    [("solo", { styleFive with name := some "solo" })]
    (by simp)
    (by
      have hloop : selectLoop 1 0 [("solo", styleFive)] = some ("solo", styleFive) := by
        simp only [selectLoop]
        rw [if_pos (by norm_num [styleFive])]
      rw [get_random_art_style, select_style, hloop]
      rfl)

/-! ## Claim C10 -/

/-- C10 counterexample: the claim states that for both sources an HTTP success
with the expected quote element absent returns `None` on that very attempt
without consuming the remaining retry attempts.  For
`DailyVersesQuoteSource.fetch_quote` this is false: when the `div.b1`
container is present but the `span.v1` verse span (the configured quote class)
is absent, no branch returns, so the loop silently starts the next attempt —
with three attempts all in that state the method performs all 3 HTTP attempts
(never sleeping) instead of returning after 1. -/
theorem c10_counterexample :
    dv_fetch_quote (fun _ => DVPage.divNoSpan) 3 =
      { result := none, attemptsUsed := 3, sleeps := 0 } ∧ (3 : Nat) ≠ 1 := by
  refine ⟨?_, by norm_num⟩
  exact dvFetchAux_all_divNoSpan (fun _ => DVPage.divNoSpan) 3 (fun j _ => rfl) 3 0 rfl

/-- C10 amended: after any prefix of network-error attempts, an HTTP success
whose top-level quote container is absent (`span.daily-word__quote` for
Bible21, `div.b1` for Daily Verses) returns `None` on that very attempt,
having slept only once per preceding network error; but for Daily Verses a
present container lacking the `span.v1` verse does not return — with every
attempt in that state the loop consumes all `maxRetries` attempts without
sleeping and only then returns `None`. -/
theorem c10_retry_discipline :
    (∀ (pages : Nat → B21Page) (maxRetries k : Nat), k < maxRetries →
      (∀ j, j < k → ∃ m, pages j = B21Page.netError m) →
      pages k = B21Page.noElement →
      bible21_fetch_quote pages maxRetries =
        { result := none, attemptsUsed := k + 1, sleeps := k }) ∧
    (∀ (pages : Nat → DVPage) (maxRetries k : Nat), k < maxRetries →
      (∀ j, j < k → ∃ m, pages j = DVPage.netError m) →
      pages k = DVPage.noDiv →
      dv_fetch_quote pages maxRetries =
        { result := none, attemptsUsed := k + 1, sleeps := k }) ∧
    (∀ (pages : Nat → DVPage) (maxRetries : Nat),
      (∀ j, j < maxRetries → pages j = DVPage.divNoSpan) →
      dv_fetch_quote pages maxRetries =
        { result := none, attemptsUsed := maxRetries, sleeps := 0 }) := by
  refine ⟨?_, ?_, ?_⟩
  · intro pages maxR k hk hchain hend
    exact bible21FetchAux_chain pages maxR k 0 (by omega)
      (fun j hj => by rw [Nat.zero_add]; exact hchain j hj)
      (by rw [Nat.zero_add]; exact hend)
  · intro pages maxR k hk hchain hend
    exact dvFetchAux_chain pages maxR k 0 (by omega)
      (fun j hj => by rw [Nat.zero_add]; exact hchain j hj)
      (by rw [Nat.zero_add]; exact hend)
  · intro pages maxR hall
    exact dvFetchAux_all_divNoSpan pages maxR hall maxR 0 (by omega)

/-- Witness for C10 amended: one network error, then the element is absent —
Bible21 returns `None` on the second attempt after exactly one sleep. -/
theorem c10_retry_witness :
    bible21_fetch_quote
      (fun n => if n = 0 then B21Page.netError "timeout" else B21Page.noElement) 3 =
      { result := none, attemptsUsed := 2, sleeps := 1 } :=
  c10_retry_discipline.1
    (fun n => if n = 0 then B21Page.netError "timeout" else B21Page.noElement) 3 1
    (by norm_num)
    (fun j hj => ⟨"timeout", by interval_cases j <;> rfl⟩)
    rfl
